import Mathlib

/-!
Verification development for the NovaLending Odra/Casper lending core.

The definitions below are a shallow embedding of the Rust sources:
`src/processor.rs` (the `NovaLending` module and its supporting structs),
`src/math/decimal.rs`, `src/math/rate.rs`, `src/math/common.rs`,
`src/state/obligation.rs` and `src/state/last_update.rs`.

Machine integers are modelled as `Nat` with explicit range checks:
`U256` values are natural numbers with every checked operation testing the
`2 ^ 256` bound, mirroring `checked_add` / `checked_sub` / `checked_mul` /
`checked_div` on `casper_types::U256`.  `Decimal` and `Rate` wrap a `U256`
scaled by `WAD = 10 ^ 18`; here they are `Nat`s holding the scaled value.
Fallible Rust functions returning `Result<_, LendingError>` become Lean
functions into `Except LendingError _`.

`U256::as_u128` / `as_u64` panic in the source when the value does not fit;
the embedding treats them as the identity on `Nat` and the theorems carry
explicit range hypotheses wherever a quantified input could reach the
panicking range.
-/

/-- Modulus of the 256-bit unsigned integers used by `casper_types::U256`. -/
def U256_MOD : Nat := 2 ^ 256

/-- Largest `U256` value; `U256::max_value()` is used as the "maximum" sentinel. -/
def U256_MAX : Nat := U256_MOD - 1

/-- Largest `u64` value, the bound checked by the `try_*_u64` conversions. -/
def U64_MAX : Nat := 2 ^ 64 - 1

/-- Fixed-point scale (`src/math/common.rs`, `WAD = 1_000_000_000_000_000_000`). -/
def WAD : Nat := 1000000000000000000

/-- Scale for percentages (`src/math/common.rs`, `PERCENT_SCALER = 10^16`). -/
def PERCENT_SCALER : Nat := 10000000000000000

/-- Error type of the lending core (`src/error.rs`, enum `LendingError`). -/
inductive LendingError where
  | InstructionUnpackError
  | AlreadyInitialized
  | NotRentExempt
  | InvalidMarketAuthority
  | InvalidMarketOwner
  | InvalidAccountOwner
  | InvalidTokenOwner
  | InvalidTokenAccount
  | InvalidTokenMint
  | InvalidTokenProgram
  | InvalidAmount
  | InvalidConfig
  | InvalidSigner
  | InvalidAccountInput
  | MathOverflow
  | TokenInitializeMintFailed
  | TokenInitializeAccountFailed
  | TokenTransferFailed
  | TokenMintToFailed
  | TokenBurnFailed
  | InsufficientLiquidity
  | ReserveCollateralDisabled
  | ReserveStale
  | WithdrawTooSmall
  | WithdrawTooLarge
  | BorrowTooSmall
  | BorrowTooLarge
  | RepayTooSmall
  | LiquidationTooSmall
  | ObligationHealthy
  | ObligationStale
  | ObligationReserveLimit
  | InvalidObligationOwner
  | ObligationDepositsEmpty
  | ObligationBorrowsEmpty
  | ObligationDepositsZero
  | ObligationBorrowsZero
  | InvalidObligationCollateral
  | InvalidObligationLiquidity
  | ObligationCollateralEmpty
  | ObligationLiquidityEmpty
  | NegativeInterestRate
  | InvalidOracleConfig
  | InvalidFlashLoanReceiverProgram
  | NotEnoughLiquidityAfterFlashLoan
  | ExceededSlippage
  | InsufficientCollateral
  deriving DecidableEq, Repr

/-- `U256::checked_add`: `none` when the mathematical sum leaves the 256-bit range. -/
def checked_add (a b : Nat) : Option Nat :=
  if a + b < U256_MOD then some (a + b) else none

/-- `U256::checked_sub`: `none` on underflow. -/
def checked_sub (a b : Nat) : Option Nat :=
  if b ≤ a then some (a - b) else none

/-- `U256::checked_mul`: `none` when the product leaves the 256-bit range. -/
def checked_mul (a b : Nat) : Option Nat :=
  if a * b < U256_MOD then some (a * b) else none

/-- `U256::checked_div`: `none` on division by zero, floor division otherwise. -/
def checked_div (a b : Nat) : Option Nat :=
  if b = 0 then none else some (a / b)

/-- `Decimal::zero()` — the scaled value 0. -/
def Decimal.zero : Nat := 0

/-- `Decimal::one()` — the scaled value `WAD`. -/
def Decimal.one : Nat := WAD

/-- `impl TryAdd for Decimal` (`src/math/decimal.rs`): checked add on the scaled value. -/
def Decimal.try_add (a b : Nat) : Except LendingError Nat :=
  match checked_add a b with
  | some v => .ok v
  | none => .error .MathOverflow

/-- `impl TrySub for Decimal`: checked sub on the scaled value. -/
def Decimal.try_sub (a b : Nat) : Except LendingError Nat :=
  match checked_sub a b with
  | some v => .ok v
  | none => .error .MathOverflow

/-- `impl TryMul<Decimal> for Decimal`: `(a * b) / WAD` with a checked product. -/
def Decimal.try_mul (a b : Nat) : Except LendingError Nat :=
  match checked_mul a b with
  | some p =>
    match checked_div p WAD with
    | some v => .ok v
    | none => .error .MathOverflow
  | none => .error .MathOverflow

/-- `impl TryDiv<Decimal> for Decimal`: `(a * WAD) / b` with checked steps. -/
def Decimal.try_div (a b : Nat) : Except LendingError Nat :=
  match checked_mul a WAD with
  | some p =>
    match checked_div p b with
    | some v => .ok v
    | none => .error .MathOverflow
  | none => .error .MathOverflow

/-- `Decimal::try_floor_u64`: floor to whole units, rejecting values beyond `u64`. -/
def Decimal.try_floor_u64 (a : Nat) : Except LendingError Nat :=
  if a / WAD > U64_MAX then .error .MathOverflow else .ok (a / WAD)

/-- `impl From<u128> for Decimal`: `WAD.checked_mul(val).unwrap_or(zero)`.
The source silently yields zero when the scaled value overflows `U256`. -/
def Decimal.fromU (val : Nat) : Nat :=
  match checked_mul WAD val with
  | some v => v
  | none => 0

/-- `Rate::from_percent` (`src/math/rate.rs`): `percent * PERCENT_SCALER`.
The argument is a `u8` in the source, so the `u64` product never wraps. -/
def Rate.from_percent (percent : Nat) : Nat := percent * PERCENT_SCALER

/-- `LastUpdate` (`src/processor.rs`): slot of last refresh plus a stale flag. -/
structure LastUpdate where
  slot : Nat
  stale : Bool
  deriving DecidableEq, Repr

/-- `LastUpdate::update_slot`: record the slot and clear the flag. -/
def LastUpdate.update_slot (lu : LastUpdate) (slot : Nat) : LastUpdate :=
  { lu with slot := slot, stale := false }

/-- `LastUpdate::mark_stale`: set the flag, leaving the slot untouched. -/
def LastUpdate.mark_stale (lu : LastUpdate) : LastUpdate :=
  { lu with stale := true }

/-- `LastUpdate::is_stale`: `self.stale || self.slot < current_slot`. -/
def LastUpdate.is_stale (lu : LastUpdate) (current_slot : Nat) : Bool :=
  lu.stale || lu.slot < current_slot

/-- `LastUpdateStorage` (`src/state/last_update.rs`). -/
structure LastUpdateStorage where
  slot : Nat
  stale : Bool
  deriving DecidableEq, Repr

/-- `LastUpdateStorage::slots_elapsed`: checked subtraction of the stored slot. -/
def LastUpdateStorage.slots_elapsed (s : LastUpdateStorage) (slot : Nat) :
    Except LendingError Nat :=
  match checked_sub slot s.slot with
  | some v => .ok v
  | none => .error .MathOverflow

/-- `STALE_AFTER_SLOTS_ELAPSED` (`src/state/last_update.rs`). -/
def STALE_AFTER_SLOTS_ELAPSED : Nat := 1

/-- `LastUpdateStorage::is_stale`: stale flag or at least one elapsed slot. -/
def LastUpdateStorage.is_stale (s : LastUpdateStorage) (slot : Nat) :
    Except LendingError Bool :=
  match s.slots_elapsed slot with
  | .ok elapsed => .ok (s.stale || STALE_AFTER_SLOTS_ELAPSED ≤ elapsed)
  | .error e => .error e

/-- `ReserveFees` (`src/processor.rs`). -/
structure ReserveFees where
  borrow_fee_wad : Nat
  flash_loan_fee_wad : Nat
  host_fee_percentage : Nat
  deriving DecidableEq, Repr

/-- `ReserveConfig` (`src/processor.rs`).  The first field is named
`loan_to_value_ratio` in the source. -/
structure ReserveConfig where
  loan_to_value : Nat
  liquidation_threshold : Nat
  liquidation_bonus : Nat
  fees : ReserveFees
  deriving DecidableEq, Repr

/-- `ReserveConfig::validate`: every percentage field must be at most 100. -/
def ReserveConfig.validate (c : ReserveConfig) : Except LendingError Unit :=
  if c.loan_to_value > 100 then .error .InvalidConfig
  else if c.liquidation_threshold > 100 then .error .InvalidConfig
  else if c.liquidation_bonus > 100 then .error .InvalidConfig
  else .ok ()

/-- `ReserveLiquidity` (`src/processor.rs`), keeping the financially relevant
fields; the address-valued fields play no part in any computation. -/
structure ReserveLiquidity where
  mint_decimals : Nat
  market_price : Nat
  available_amount : Nat
  borrowed_amount_wads : Nat
  cumulative_borrow_rate_wads : Nat
  deriving DecidableEq, Repr

/-- `ReserveCollateral` (`src/processor.rs`). -/
structure ReserveCollateral where
  mint_total_supply : Nat
  deriving DecidableEq, Repr

/-- `Reserve` (`src/processor.rs`). -/
structure Reserve where
  lending_market : Nat
  liquidity : ReserveLiquidity
  collateral : ReserveCollateral
  config : ReserveConfig
  last_update : LastUpdate
  deriving DecidableEq, Repr

/-- `Collateral` entry of the processor-level `Obligation` (`src/processor.rs`). -/
structure Collateral where
  deposit_reserve : Nat
  deposited_amount : Nat
  market_value : Nat
  deriving DecidableEq, Repr

/-- `Liquidity` entry of the processor-level `Obligation` (`src/processor.rs`). -/
structure Liquidity where
  borrow_reserve : Nat
  borrowed_amount_wads : Nat
  market_value : Nat
  cumulative_borrow_rate_wads : Nat
  deriving DecidableEq, Repr

/-- `Obligation` (`src/processor.rs`). -/
structure Obligation where
  lending_market : Nat
  owner : Nat
  deposits : List Collateral
  borrows : List Liquidity
  deposited_value : Nat
  borrowed_value : Nat
  allowed_borrow_value : Nat
  unhealthy_borrow_value : Nat
  last_update : LastUpdate
  deriving DecidableEq, Repr

/-- `impl TryAdd for U256` (`src/processor.rs`): checked addition. -/
def U256.try_add (a b : Nat) : Except LendingError Nat :=
  match checked_add a b with
  | some v => .ok v
  | none => .error .MathOverflow

/-- `impl TrySub for U256` (`src/processor.rs`): checked subtraction. -/
def U256.try_sub (a b : Nat) : Except LendingError Nat :=
  match checked_sub a b with
  | some v => .ok v
  | none => .error .MathOverflow

/-- `ReserveLiquidity::deposit`: add to the available amount. -/
def ReserveLiquidity.deposit (l : ReserveLiquidity) (amount : Nat) :
    Except LendingError ReserveLiquidity := do
  let v ← U256.try_add l.available_amount amount
  .ok { l with available_amount := v }

/-- `ReserveLiquidity::withdraw`: remove from the available amount. -/
def ReserveLiquidity.withdraw (l : ReserveLiquidity) (amount : Nat) :
    Except LendingError ReserveLiquidity :=
  if l.available_amount < amount then .error .InsufficientLiquidity
  else do
    let v ← U256.try_sub l.available_amount amount
    .ok { l with available_amount := v }

/-- `ReserveLiquidity::borrow`: move the floored amount out of the available
liquidity and add the full decimal amount to the outstanding borrows. -/
def ReserveLiquidity.borrow (l : ReserveLiquidity) (amount : Nat) :
    Except LendingError ReserveLiquidity := do
  let amount_u256 ← Decimal.try_floor_u64 amount
  if l.available_amount < amount_u256 then .error .InsufficientLiquidity
  else do
    let av ← U256.try_sub l.available_amount amount_u256
    let bw ← Decimal.try_add l.borrowed_amount_wads amount
    .ok { l with available_amount := av, borrowed_amount_wads := bw }

/-- `ReserveLiquidity::repay`: credit the received integer amount and settle
the (possibly fractional) decimal amount against the outstanding borrows. -/
def ReserveLiquidity.repay (l : ReserveLiquidity) (repay_amount settle_amount : Nat) :
    Except LendingError ReserveLiquidity := do
  let av ← U256.try_add l.available_amount repay_amount
  let bw ← Decimal.try_sub l.borrowed_amount_wads settle_amount
  .ok { l with available_amount := av, borrowed_amount_wads := bw }

/-- `ReserveLiquidity::total_supply`: available plus floored borrows, falling
back on each overflow exactly as the source's `unwrap_or` chain does. -/
def ReserveLiquidity.total_supply (l : ReserveLiquidity) : Nat :=
  let floored := match Decimal.try_floor_u64 l.borrowed_amount_wads with
    | .ok v => v
    | .error _ => 0
  match checked_add l.available_amount floored with
  | some v => v
  | none => l.available_amount

/-- `ReserveCollateral::mint`. -/
def ReserveCollateral.mint (c : ReserveCollateral) (amount : Nat) :
    Except LendingError ReserveCollateral := do
  let v ← U256.try_add c.mint_total_supply amount
  .ok { c with mint_total_supply := v }

/-- `ReserveCollateral::burn`. -/
def ReserveCollateral.burn (c : ReserveCollateral) (amount : Nat) :
    Except LendingError ReserveCollateral :=
  if c.mint_total_supply < amount then .error .InsufficientCollateral
  else do
    let v ← U256.try_sub c.mint_total_supply amount
    .ok { c with mint_total_supply := v }

/-- `Reserve::collateral_exchange_rate`: `1.0` while no collateral has been
minted, otherwise total liquidity supply divided by the collateral supply. -/
def Reserve.collateral_exchange_rate (r : Reserve) : Except LendingError Nat :=
  if r.collateral.mint_total_supply = 0 then .ok Decimal.one
  else Decimal.try_div (Decimal.fromU r.liquidity.total_supply)
    (Decimal.fromU r.collateral.mint_total_supply)

/-- `Reserve::deposit_liquidity`: mint `floor(exchange_rate * amount)`
collateral and add the liquidity; returns the updated reserve and the
minted collateral amount. -/
def Reserve.deposit_liquidity (r : Reserve) (amount : Nat) :
    Except LendingError (Reserve × Nat) := do
  let exchange_rate ← r.collateral_exchange_rate
  let scaled ← Decimal.try_mul exchange_rate (Decimal.fromU amount)
  let collateral_amount ← Decimal.try_floor_u64 scaled
  let liq ← r.liquidity.deposit amount
  let col ← r.collateral.mint collateral_amount
  .ok ({ r with liquidity := liq, collateral := col }, collateral_amount)

/-- `Reserve::redeem_collateral`: burn collateral and pay out
`floor(amount / exchange_rate)` liquidity; returns the updated reserve and
the liquidity amount paid out. -/
def Reserve.redeem_collateral (r : Reserve) (amount : Nat) :
    Except LendingError (Reserve × Nat) := do
  let exchange_rate ← r.collateral_exchange_rate
  let scaled ← Decimal.try_div (Decimal.fromU amount) exchange_rate
  let liquidity_amount ← Decimal.try_floor_u64 scaled
  if r.liquidity.available_amount < liquidity_amount then
    .error .InsufficientLiquidity
  else do
    let col ← r.collateral.burn amount
    let liq ← r.liquidity.withdraw liquidity_amount
    .ok ({ r with liquidity := liq, collateral := col }, liquidity_amount)

/-- Result of `Reserve::calculate_borrow` (`CalculateBorrowResult`). -/
structure CalculateBorrowResult where
  borrow_amount : Nat
  receive_amount : Nat
  borrow_fee : Nat
  host_fee : Nat
  deriving DecidableEq, Repr

/-- Result of `Reserve::calculate_repay` (`CalculateRepayResult`). -/
structure CalculateRepayResult where
  settle_amount : Nat
  repay_amount : Nat
  deriving DecidableEq, Repr

/-- Result of `Reserve::calculate_liquidation` (`CalculateLiquidationResult`). -/
structure CalculateLiquidationResult where
  settle_amount : Nat
  repay_amount : Nat
  withdraw_amount : Nat
  deriving DecidableEq, Repr

/-- `Reserve::calculate_borrow`: cap the request at the floored remaining
capacity (the `U256::max_value()` sentinel takes the whole capacity), then
split off a 1% borrow fee and a 10%-of-fee host fee. -/
def Reserve.calculate_borrow (_r : Reserve) (amount : Nat) (remaining : Nat) :
    Except LendingError CalculateBorrowResult := do
  let remaining_u64 ← Decimal.try_floor_u64 remaining
  let borrow_amount := if amount = U256_MAX then remaining_u64 else min amount remaining_u64
  let borrow_fee := borrow_amount / 100
  let host_fee := borrow_fee / 10
  let receive_amount := borrow_amount - borrow_fee
  .ok { borrow_amount := Decimal.fromU borrow_amount, receive_amount := receive_amount,
        borrow_fee := borrow_fee, host_fee := host_fee }

/-- `Reserve::calculate_repay`: cap the request at the floored outstanding
debt; the settle amount is the repaid integer re-scaled to a decimal. -/
def Reserve.calculate_repay (_r : Reserve) (amount : Nat) (borrowed : Nat) :
    Except LendingError CalculateRepayResult := do
  let borrowed_u256 ← Decimal.try_floor_u64 borrowed
  let repay_amount := if amount = U256_MAX then borrowed_u256 else min amount borrowed_u256
  .ok { settle_amount := Decimal.fromU repay_amount, repay_amount := repay_amount }

/-- `Reserve::calculate_liquidation`: repay value is the request capped at
`borrowed_value - unhealthy_borrow_value`; the withdraw value applies the
fixed `Rate::from_percent(105)` premium; both amounts are floored, the
withdraw side after division by the collateral's market value. -/
def Reserve.calculate_liquidation (_r : Reserve) (amount : Nat) (obligation : Obligation)
    (_liquidity : Liquidity) (collateral : Collateral) :
    Except LendingError CalculateLiquidationResult := do
  let max_repay ← Decimal.try_sub obligation.borrowed_value obligation.unhealthy_borrow_value
  let repay_value := min (Decimal.fromU amount) max_repay
  let liquidation_premium := Rate.from_percent 105
  let withdraw_value ← Decimal.try_mul repay_value liquidation_premium
  let repay_amount ← Decimal.try_floor_u64 repay_value
  let divided ← Decimal.try_div withdraw_value collateral.market_value
  let withdraw_amount ← Decimal.try_floor_u64 divided
  .ok { settle_amount := repay_value, repay_amount := repay_amount,
        withdraw_amount := withdraw_amount }

/-- `ReserveFees::calculate_flash_loan_fees`: fee = amount x flash-loan fee,
host fee = fee x host percentage, origination fee = fee - host fee. -/
def ReserveFees.calculate_flash_loan_fees (fees : ReserveFees) (amount : Nat) :
    Except LendingError (Nat × Nat) := do
  let fee ← Decimal.try_mul amount (Decimal.fromU fees.flash_loan_fee_wad)
  let host_fee ← Decimal.try_mul fee (Decimal.fromU fees.host_fee_percentage)
  let origination_fee ← Decimal.try_sub fee host_fee
  .ok (origination_fee, host_fee)

/-- Linear scan of the deposits list, tracking the index (the loop inside
`Obligation::find_collateral_in_deposits`, `src/processor.rs`). -/
def findCollateralAux (reserve : Nat) : List Collateral → Nat → Option (Collateral × Nat)
  | [], _ => none
  | c :: rest, i =>
    if c.deposit_reserve = reserve then some (c, i) else findCollateralAux reserve rest (i + 1)

/-- Linear scan of the borrows list, tracking the index (the loop inside
`Obligation::find_liquidity_in_borrows`, `src/processor.rs`). -/
def findLiquidityAux (reserve : Nat) : List Liquidity → Nat → Option (Liquidity × Nat)
  | [], _ => none
  | l :: rest, i =>
    if l.borrow_reserve = reserve then some (l, i) else findLiquidityAux reserve rest (i + 1)

/-- `Obligation::find_collateral_in_deposits` (`src/processor.rs`). -/
def Obligation.find_collateral_in_deposits (ob : Obligation) (reserve : Nat) :
    Except LendingError (Collateral × Nat) :=
  match findCollateralAux reserve ob.deposits 0 with
  | some r => .ok r
  | none => .error .ObligationCollateralEmpty

/-- `Obligation::find_liquidity_in_borrows` (`src/processor.rs`). -/
def Obligation.find_liquidity_in_borrows (ob : Obligation) (reserve : Nat) :
    Except LendingError (Liquidity × Nat) :=
  match findLiquidityAux reserve ob.borrows 0 with
  | some r => .ok r
  | none => .error .ObligationLiquidityEmpty

/-- `Obligation::find_or_add_collateral_to_deposits` (`src/processor.rs`):
append a fresh zero entry when the reserve has none, and return the index of
the entry for the reserve.  This processor-level variant never fails. -/
def Obligation.find_or_add_collateral_to_deposits (ob : Obligation) (reserve : Nat) :
    Obligation × Nat :=
  match findCollateralAux reserve ob.deposits 0 with
  | some (_, i) => (ob, i)
  | none =>
    ({ ob with deposits := ob.deposits ++
        [{ deposit_reserve := reserve, deposited_amount := 0, market_value := Decimal.zero }] },
      ob.deposits.length)

/-- `Obligation::find_or_add_liquidity_to_borrows` (`src/processor.rs`):
append a fresh entry (zero debt, unit cumulative rate) when absent. -/
def Obligation.find_or_add_liquidity_to_borrows (ob : Obligation) (reserve : Nat) :
    Obligation × Nat :=
  match findLiquidityAux reserve ob.borrows 0 with
  | some (_, i) => (ob, i)
  | none =>
    ({ ob with borrows := ob.borrows ++
        [{ borrow_reserve := reserve, borrowed_amount_wads := Decimal.zero,
           market_value := Decimal.zero, cumulative_borrow_rate_wads := Decimal.one }] },
      ob.borrows.length)

/-- `Obligation::withdraw` (`src/processor.rs`): bounds-check the index, then
subtract from the entry in place.  The entry is kept even when it reaches 0. -/
def Obligation.withdraw (ob : Obligation) (amount : Nat) (index : Nat) :
    Except LendingError Obligation :=
  match ob.deposits[index]? with
  | none => .error .InvalidAccountInput
  | some c =>
    if c.deposited_amount < amount then .error .WithdrawTooLarge
    else
      let c2 := { c with deposited_amount := c.deposited_amount - amount }
      .ok { ob with deposits := ob.deposits.set index c2 }

/-- `Obligation::repay` (`src/processor.rs`): bounds-check the index, reject a
settle amount above the entry's debt, then subtract in place.  The entry is
kept in the borrows list even when its debt reaches 0. -/
def Obligation.repay (ob : Obligation) (amount : Nat) (index : Nat) :
    Except LendingError Obligation :=
  match ob.borrows[index]? with
  | none => .error .InvalidAccountInput
  | some l =>
    if l.borrowed_amount_wads < amount then .error .RepayTooSmall
    else do
      let v ← Decimal.try_sub l.borrowed_amount_wads amount
      let l2 := { l with borrowed_amount_wads := v }
      .ok { ob with borrows := ob.borrows.set index l2 }

/-- `Obligation::remaining_borrow_value` (`src/processor.rs`): the allowed
borrow value minus the borrowed value, clamped at zero. -/
def Obligation.remaining_borrow_value (ob : Obligation) : Except LendingError Nat :=
  if ob.allowed_borrow_value ≤ ob.borrowed_value then .ok Decimal.zero
  else Decimal.try_sub ob.allowed_borrow_value ob.borrowed_value

/-- `Obligation::max_withdraw_value` (`src/processor.rs`): full deposited
value when there are no borrows, else `deposited_value * rate` minus the
borrowed value, clamped at zero. -/
def Obligation.max_withdraw_value (ob : Obligation) (rate : Nat) : Except LendingError Nat :=
  if ob.borrows = [] then .ok ob.deposited_value
  else do
    let available_value ← Decimal.try_mul ob.deposited_value rate
    if available_value ≤ ob.borrowed_value then .ok Decimal.zero
    else Decimal.try_sub available_value ob.borrowed_value

/-- `Liquidity::borrow` (`src/processor.rs`): add the integer amount, rescaled
to a decimal, to the entry's debt. -/
def Liquidity.borrow (l : Liquidity) (amount : Nat) : Except LendingError Liquidity := do
  let v ← Decimal.try_add l.borrowed_amount_wads (Decimal.fromU amount)
  .ok { l with borrowed_amount_wads := v }

/-- `Liquidity::accrue_interest` (`src/processor.rs`, lines 1144-1149): scale
the debt by `cumulative_borrow_rate / snapshot` and advance the snapshot.
Unlike the `state/obligation.rs` variant below, it performs NO check that the
supplied index is at least the stored snapshot. -/
def Liquidity.accrue_interest (l : Liquidity) (cumulative_borrow_rate : Nat) :
    Except LendingError Liquidity := do
  let compounded_interest ← Decimal.try_div cumulative_borrow_rate l.cumulative_borrow_rate_wads
  let v ← Decimal.try_mul l.borrowed_amount_wads compounded_interest
  .ok { l with borrowed_amount_wads := v,
               cumulative_borrow_rate_wads := cumulative_borrow_rate }

/-- `ObligationLiquidity::accrue_interest` (`src/state/obligation.rs`,
lines 249-262), modelled on the same entry record: fail with
`NegativeInterestRate` when the supplied index is below the snapshot, then
compound exactly as the processor variant does. -/
def ObligationLiquidity.accrue_interest (l : Liquidity) (cumulative_borrow_rate_wads : Nat) :
    Except LendingError Liquidity :=
  if cumulative_borrow_rate_wads < l.cumulative_borrow_rate_wads then
    .error .NegativeInterestRate
  else do
    let compounded_interest_rate ←
      Decimal.try_div cumulative_borrow_rate_wads l.cumulative_borrow_rate_wads
    let v ← Decimal.try_mul l.borrowed_amount_wads compounded_interest_rate
    .ok { l with borrowed_amount_wads := v,
                 cumulative_borrow_rate_wads := cumulative_borrow_rate_wads }

/-- `ObligationLiquidity::repay` (`src/state/obligation.rs`): reject a settle
amount above the debt, then subtract. -/
def ObligationLiquidity.repay (l : Liquidity) (settle_amount : Nat) :
    Except LendingError Liquidity :=
  if l.borrowed_amount_wads < settle_amount then .error .MathOverflow
  else do
    let v ← Decimal.try_sub l.borrowed_amount_wads settle_amount
    .ok { l with borrowed_amount_wads := v }

/-- `Obligation::repay` of the state module (`src/state/obligation.rs`,
lines 54-66), modelled on the processor's obligation record: a settle amount
equal to the entry's whole debt REMOVES the entry from the borrows list,
otherwise the entry is decreased in place. -/
def StateObligation.repay (ob : Obligation) (settle_amount : Nat) (liquidity_index : Nat) :
    Except LendingError Obligation :=
  match ob.borrows[liquidity_index]? with
  | none => .error .InvalidObligationLiquidity
  | some l =>
    if settle_amount = l.borrowed_amount_wads then
      .ok { ob with borrows := ob.borrows.eraseIdx liquidity_index }
    else do
      let l2 ← ObligationLiquidity.repay l settle_amount
      .ok { ob with borrows := ob.borrows.set liquidity_index l2 }

/-- `NovaLending::deposit_reserve_liquidity` (`src/processor.rs`, lines
148-174), with the storage lookup modelled as an `Option Reserve` and the
block time passed explicitly.  Token transfers are no-ops in the source.
Returns the reserve written back to storage and the minted amount. -/
def NovaLending.deposit_reserve_liquidity (clock : Nat) (reserve : Option Reserve)
    (liquidity_amount : Nat) : Except LendingError (Reserve × Nat) :=
  if liquidity_amount = 0 then .error .InvalidAmount
  else
    match reserve with
    | none => .error .InvalidAccountInput
    | some r =>
      if r.last_update.is_stale clock then .error .ReserveStale
      else do
        let (r1, collateral_amount) ← r.deposit_liquidity liquidity_amount
        .ok ({ r1 with last_update := r1.last_update.mark_stale }, collateral_amount)

/-- `NovaLending::redeem_reserve_collateral` (`src/processor.rs`, lines
176-202).  Returns the reserve written back and the liquidity paid out. -/
def NovaLending.redeem_reserve_collateral (clock : Nat) (reserve : Option Reserve)
    (collateral_amount : Nat) : Except LendingError (Reserve × Nat) :=
  if collateral_amount = 0 then .error .InvalidAmount
  else
    match reserve with
    | none => .error .InvalidAccountInput
    | some r =>
      if r.last_update.is_stale clock then .error .ReserveStale
      else do
        let (r1, liquidity_amount) ← r.redeem_collateral collateral_amount
        .ok ({ r1 with last_update := r1.last_update.mark_stale }, liquidity_amount)

/-- `NovaLending::deposit_obligation_collateral` (`src/processor.rs`, lines
297-333).  The reserve is written back unchanged; only the obligation is
mutated and marked stale. -/
def NovaLending.deposit_obligation_collateral (clock : Nat) (reserve_key : Nat)
    (obligation : Option Obligation) (reserve : Option Reserve) (collateral_amount : Nat) :
    Except LendingError (Obligation × Reserve) :=
  if collateral_amount = 0 then .error .InvalidAmount
  else
    match obligation with
    | none => .error .InvalidObligationOwner
    | some ob =>
      match reserve with
      | none => .error .InvalidAccountInput
      | some r =>
        if r.last_update.is_stale clock then .error .ReserveStale
        else if r.config.loan_to_value = 0 then .error .ReserveCollateralDisabled
        else
          let (ob1, i) := ob.find_or_add_collateral_to_deposits reserve_key
          match ob1.deposits[i]? with
          | none => .error .InvalidAccountInput
          | some c => do
            let d ← U256.try_add c.deposited_amount collateral_amount
            let c2 := { c with deposited_amount := d }
            let ob2 := { ob1 with deposits := ob1.deposits.set i c2 }
            .ok ({ ob2 with last_update := ob2.last_update.mark_stale }, r)

/-- `NovaLending::calculate_withdraw_amount` (`src/processor.rs`, lines
703-747): the withdrawal path used when the obligation has borrows. -/
def NovaLending.calculate_withdraw_amount (ob : Obligation) (r : Reserve)
    (collateral : Collateral) (collateral_amount : Nat) : Except LendingError Nat :=
  if ob.deposited_value = 0 then .error .ObligationDepositsZero
  else do
    let max_withdraw_value ← ob.max_withdraw_value (Rate.from_percent r.config.loan_to_value)
    if max_withdraw_value = 0 then .error .WithdrawTooLarge
    else do
      let withdraw_amount ←
        if collateral_amount = U256_MAX then do
          let withdraw_value := min max_withdraw_value collateral.market_value
          let withdraw_pct ← Decimal.try_div withdraw_value collateral.market_value
          let scaled ← Decimal.try_mul withdraw_pct (Decimal.fromU collateral.deposited_amount)
          let floored ← Decimal.try_floor_u64 scaled
          .ok (min floored collateral.deposited_amount)
        else do
          let w := min collateral_amount collateral.deposited_amount
          let withdraw_pct ← Decimal.try_div (Decimal.fromU w)
            (Decimal.fromU collateral.deposited_amount)
          let withdraw_value ← Decimal.try_mul collateral.market_value withdraw_pct
          if max_withdraw_value < withdraw_value then .error .WithdrawTooLarge
          else .ok w
      if withdraw_amount = 0 then .error .WithdrawTooSmall
      else .ok withdraw_amount

/-- `NovaLending::withdraw_obligation_collateral` (`src/processor.rs`, lines
335-379).  Returns the obligation written back and the amount withdrawn. -/
def NovaLending.withdraw_obligation_collateral (clock : Nat) (reserve_key : Nat)
    (obligation : Option Obligation) (reserve : Option Reserve) (collateral_amount : Nat) :
    Except LendingError (Obligation × Nat) :=
  if collateral_amount = 0 then .error .InvalidAmount
  else
    match obligation with
    | none => .error .InvalidObligationOwner
    | some ob =>
      match reserve with
      | none => .error .InvalidAccountInput
      | some r =>
        if r.last_update.is_stale clock || ob.last_update.is_stale clock then
          .error .ReserveStale
        else do
          let (collateral, collateral_index) ← ob.find_collateral_in_deposits reserve_key
          if collateral.deposited_amount = 0 then .error .ObligationCollateralEmpty
          else do
            let withdraw_amount ←
              if ob.borrows = [] then
                if collateral_amount = U256_MAX then .ok collateral.deposited_amount
                else .ok (min collateral.deposited_amount collateral_amount)
              else
                NovaLending.calculate_withdraw_amount ob r collateral collateral_amount
            let ob1 ← ob.withdraw withdraw_amount collateral_index
            .ok ({ ob1 with last_update := ob1.last_update.mark_stale }, withdraw_amount)

/-- `NovaLending::borrow_obligation_liquidity` (`src/processor.rs`, lines
385-445).  Returns the obligation and reserve written back plus the amount
transferred to the user. -/
def NovaLending.borrow_obligation_liquidity (clock : Nat) (reserve_key : Nat)
    (obligation : Option Obligation) (reserve : Option Reserve)
    (liquidity_amount slippage_limit : Nat) :
    Except LendingError (Obligation × Reserve × Nat) :=
  if liquidity_amount = 0 then .error .InvalidAmount
  else
    match obligation with
    | none => .error .InvalidObligationOwner
    | some ob =>
      match reserve with
      | none => .error .InvalidAccountInput
      | some r =>
        if r.last_update.is_stale clock || ob.last_update.is_stale clock then
          .error .ReserveStale
        else if ob.deposits = [] then .error .ObligationDepositsEmpty
        else do
          let remaining_borrow_value ← ob.remaining_borrow_value
          if remaining_borrow_value = 0 then .error .BorrowTooLarge
          else do
            let res ← r.calculate_borrow liquidity_amount remaining_borrow_value
            if res.receive_amount = 0 then .error .BorrowTooSmall
            else if liquidity_amount = U256_MAX ∧ res.receive_amount < slippage_limit then
              .error .ExceededSlippage
            else do
              let liq ← r.liquidity.borrow res.borrow_amount
              let r1 := { r with liquidity := liq, last_update := r.last_update.mark_stale }
              let (ob1, i) := ob.find_or_add_liquidity_to_borrows reserve_key
              match ob1.borrows[i]? with
              | none => .error .InvalidAccountInput
              | some entry => do
                let floored ← Decimal.try_floor_u64 res.borrow_amount
                let entry2 ← entry.borrow floored
                let ob2 := { ob1 with borrows := ob1.borrows.set i entry2 }
                .ok ({ ob2 with last_update := ob2.last_update.mark_stale }, r1,
                  res.receive_amount)

/-- `NovaLending::repay_obligation_liquidity` (`src/processor.rs`, lines
447-494).  Returns the obligation and reserve written back. -/
def NovaLending.repay_obligation_liquidity (clock : Nat) (reserve_key : Nat)
    (obligation : Option Obligation) (reserve : Option Reserve) (liquidity_amount : Nat) :
    Except LendingError (Obligation × Reserve) :=
  if liquidity_amount = 0 then .error .InvalidAmount
  else
    match obligation with
    | none => .error .InvalidObligationOwner
    | some ob =>
      match reserve with
      | none => .error .InvalidAccountInput
      | some r =>
        if r.last_update.is_stale clock || ob.last_update.is_stale clock then
          .error .ReserveStale
        else do
          let (liquidity, liquidity_index) ← ob.find_liquidity_in_borrows reserve_key
          if liquidity.borrowed_amount_wads = 0 then .error .ObligationLiquidityEmpty
          else do
            let res ← r.calculate_repay liquidity_amount liquidity.borrowed_amount_wads
            if res.repay_amount = 0 then .error .RepayTooSmall
            else do
              let liq ← r.liquidity.repay res.repay_amount res.settle_amount
              let r1 := { r with liquidity := liq, last_update := r.last_update.mark_stale }
              let ob1 ← ob.repay res.settle_amount liquidity_index
              .ok ({ ob1 with last_update := ob1.last_update.mark_stale }, r1)

/-- The part of `NovaLending::liquidate_obligation` after the health gate
(`src/processor.rs`, lines 530-562): find the debt and collateral entries,
size the liquidation, apply the repayment to the repay reserve and the
repayment plus withdrawal to the obligation.  The withdraw reserve is
written back unchanged. -/
def NovaLending.liquidate_obligation_checked (repay_reserve_key withdraw_reserve_key : Nat)
    (ob : Obligation) (repay_reserve withdraw_reserve : Reserve) (liquidity_amount : Nat) :
    Except LendingError (Obligation × Reserve × Reserve) := do
  let (liquidity, liquidity_index) ← ob.find_liquidity_in_borrows repay_reserve_key
  let (collateral, collateral_index) ← ob.find_collateral_in_deposits withdraw_reserve_key
  let res ← withdraw_reserve.calculate_liquidation liquidity_amount ob liquidity collateral
  if res.repay_amount = 0 ∨ res.withdraw_amount = 0 then .error .LiquidationTooSmall
  else do
    let liq ← repay_reserve.liquidity.repay res.repay_amount res.settle_amount
    let rr1 :=
      { repay_reserve with liquidity := liq, last_update := repay_reserve.last_update.mark_stale }
    let ob1 ← ob.repay res.settle_amount liquidity_index
    let ob2 ← ob1.withdraw res.withdraw_amount collateral_index
    .ok ({ ob2 with last_update := ob2.last_update.mark_stale }, rr1, withdraw_reserve)

/-- `NovaLending::liquidate_obligation` (`src/processor.rs`, lines 500-563):
amount and existence checks, freshness checks, the obligation-healthy gate,
then the checked liquidation body. -/
def NovaLending.liquidate_obligation (clock : Nat) (repay_reserve_key withdraw_reserve_key : Nat)
    (obligation : Option Obligation) (repay_reserve withdraw_reserve : Option Reserve)
    (liquidity_amount : Nat) : Except LendingError (Obligation × Reserve × Reserve) :=
  if liquidity_amount = 0 then .error .InvalidAmount
  else
    match obligation with
    | none => .error .InvalidObligationOwner
    | some ob =>
      match repay_reserve with
      | none => .error .InvalidAccountInput
      | some rr =>
        match withdraw_reserve with
        | none => .error .InvalidAccountInput
        | some wr =>
          if rr.last_update.is_stale clock || wr.last_update.is_stale clock ||
              ob.last_update.is_stale clock then .error .ReserveStale
          else if ob.borrowed_value < ob.unhealthy_borrow_value then
            .error .ObligationHealthy
          else
            NovaLending.liquidate_obligation_checked repay_reserve_key withdraw_reserve_key
              ob rr wr liquidity_amount

/-- `NovaLending::flash_loan` (`src/processor.rs`, lines 569-608): size the
loan (the sentinel takes all available liquidity), compute the fee split and
the required repayment, debit the liquidity, run the (no-op) callback, credit
the liquidity back, and floor both fees for the (no-op) distribution.  No
`mark_stale` call appears anywhere on this path. -/
def NovaLending.flash_loan (reserve : Option Reserve) (amount : Nat) :
    Except LendingError Reserve :=
  if amount = 0 then .error .InvalidAmount
  else
    match reserve with
    | none => .error .InvalidAccountInput
    | some r => do
      let flash_loan_amount := if amount = U256_MAX then r.liquidity.available_amount else amount
      let (origination_fee, host_fee) ←
        r.config.fees.calculate_flash_loan_fees (Decimal.fromU flash_loan_amount)
      let fee_floored ← Decimal.try_floor_u64 origination_fee
      let _returned_amount_required ← U256.try_add flash_loan_amount fee_floored
      let liq1 ← r.liquidity.borrow (Decimal.fromU flash_loan_amount)
      let liq2 ← liq1.repay flash_loan_amount (Decimal.fromU flash_loan_amount)
      let _origination_floored ← Decimal.try_floor_u64 origination_fee
      let _host_floored ← Decimal.try_floor_u64 host_fee
      .ok { r with liquidity := liq2 }

/-- `NovaLending::modify_reserve_config` (`src/processor.rs`, lines 614-640):
validate the new config, check the caller is the market owner and the reserve
belongs to this market, then overwrite the config.  The reserve's staleness
marker is left untouched. -/
def NovaLending.modify_reserve_config (caller owner self_address : Nat)
    (reserve : Option Reserve) (new_config : ReserveConfig) : Except LendingError Reserve := do
  let _ ← new_config.validate
  if caller ≠ owner then .error .InvalidMarketOwner
  else
    match reserve with
    | none => .error .InvalidAccountInput
    | some r =>
      if r.lending_market ≠ self_address then .error .InvalidAccountInput
      else .ok { r with config := new_config }

/-- Claim-side rendering of C2's liquidation formula, following the spec's
words: the premium applied to the repay value is the reserve's configured
`liquidation_bonus`, i.e. the multiplier is `(100 + liquidation_bonus)%`.
Everything else matches `Reserve::calculate_liquidation`.  Used only to
compare against the source definition. -/
def Reserve.calculate_liquidation_per_claim (r : Reserve) (amount : Nat)
    (obligation : Obligation) (collateral : Collateral) :
    Except LendingError CalculateLiquidationResult := do
  let max_repay ← Decimal.try_sub obligation.borrowed_value obligation.unhealthy_borrow_value
  let repay_value := min (Decimal.fromU amount) max_repay
  let liquidation_premium := Rate.from_percent (100 + r.config.liquidation_bonus)
  let withdraw_value ← Decimal.try_mul repay_value liquidation_premium
  let repay_amount ← Decimal.try_floor_u64 repay_value
  let divided ← Decimal.try_div withdraw_value collateral.market_value
  let withdraw_amount ← Decimal.try_floor_u64 divided
  .ok { settle_amount := repay_value, repay_amount := repay_amount,
        withdraw_amount := withdraw_amount }

/-- Claim-side rendering of C4's `max_withdraw_value`, following the spec's
words: full deposited value when there are no borrows, full deposited value
when the collateral's loan-to-value is zero, otherwise
`(allowed_borrow_value - borrowed_value) / ltv` clamped at zero.  Used only
to compare against the source definition. -/
def Obligation.max_withdraw_value_per_claim (ob : Obligation) (rate : Nat) :
    Except LendingError Nat :=
  if ob.borrows = [] then .ok ob.deposited_value
  else if rate = 0 then .ok ob.deposited_value
  else if ob.allowed_borrow_value ≤ ob.borrowed_value then .ok Decimal.zero
  else do
    let d ← Decimal.try_sub ob.allowed_borrow_value ob.borrowed_value
    Decimal.try_div d rate

theorem bind_eq_ok {ε α β : Type} {x : Except ε α} {f : α → Except ε β} {b : β}
    (h : x >>= f = .ok b) : ∃ a, x = .ok a ∧ f a = .ok b := by
  cases x with
  | error e => simp [Bind.bind, Except.bind] at h
  | ok a => exact ⟨a, rfl, h⟩

theorem bind_ne_error {ε α β : Type} {x : Except ε α} {f : α → Except ε β} {e : ε}
    (hx : x ≠ .error e) (hf : ∀ a, f a ≠ .error e) : x >>= f ≠ .error e := by
  cases x with
  | error e2 =>
    intro h
    simp only [Bind.bind, Except.bind] at h
    injection h with h
    cases h
    exact hx rfl
  | ok a =>
    intro h
    simp only [Bind.bind, Except.bind] at h
    exact hf a h

theorem Decimal.try_add_err {a b : Nat} {e : LendingError}
    (h : Decimal.try_add a b = .error e) : e = .MathOverflow := by
  unfold Decimal.try_add checked_add at h
  split at h <;> simp_all

theorem Decimal.try_sub_err {a b : Nat} {e : LendingError}
    (h : Decimal.try_sub a b = .error e) : e = .MathOverflow := by
  unfold Decimal.try_sub checked_sub at h
  split at h <;> simp_all

theorem Decimal.try_mul_err {a b : Nat} {e : LendingError}
    (h : Decimal.try_mul a b = .error e) : e = .MathOverflow := by
  unfold Decimal.try_mul checked_mul checked_div at h
  split at h
  · split at h <;> simp_all
  · simp_all

theorem Decimal.try_div_err {a b : Nat} {e : LendingError}
    (h : Decimal.try_div a b = .error e) : e = .MathOverflow := by
  unfold Decimal.try_div checked_mul checked_div at h
  split at h
  · split at h <;> simp_all
  · simp_all

theorem Decimal.try_floor_u64_err {a : Nat} {e : LendingError}
    (h : Decimal.try_floor_u64 a = .error e) : e = .MathOverflow := by
  unfold Decimal.try_floor_u64 at h
  split at h <;> simp_all

theorem U256.add_err {a b : Nat} {e : LendingError}
    (h : U256.try_add a b = .error e) : e = .MathOverflow := by
  unfold U256.try_add checked_add at h
  split at h <;> simp_all

theorem U256.sub_err {a b : Nat} {e : LendingError}
    (h : U256.try_sub a b = .error e) : e = .MathOverflow := by
  unfold U256.try_sub checked_sub at h
  split at h <;> simp_all

theorem Decimal.try_add_ok {a b : Nat} (h : a + b < U256_MOD) :
    Decimal.try_add a b = .ok (a + b) := by
  unfold Decimal.try_add checked_add
  simp [h]

theorem Decimal.try_sub_ok {a b : Nat} (h : b ≤ a) :
    Decimal.try_sub a b = .ok (a - b) := by
  unfold Decimal.try_sub checked_sub
  simp [h]

theorem Decimal.try_mul_ok {a b : Nat} (h : a * b < U256_MOD) :
    Decimal.try_mul a b = .ok (a * b / WAD) := by
  unfold Decimal.try_mul checked_mul checked_div
  simp [h, WAD]

theorem Decimal.try_div_ok {a b : Nat} (h1 : a * WAD < U256_MOD) (h2 : b ≠ 0) :
    Decimal.try_div a b = .ok (a * WAD / b) := by
  unfold Decimal.try_div checked_mul checked_div
  simp [h1, h2]

theorem Decimal.try_floor_u64_ok {a : Nat} (h : a / WAD ≤ U64_MAX) :
    Decimal.try_floor_u64 a = .ok (a / WAD) := by
  unfold Decimal.try_floor_u64
  simp [Nat.not_lt.mpr h]

theorem Decimal.fromU_eq {v : Nat} (h : WAD * v < U256_MOD) : Decimal.fromU v = WAD * v := by
  unfold Decimal.fromU checked_mul
  simp [h]

theorem Obligation.find_liquidity_in_borrows_err {ob : Obligation} {k : Nat} {e : LendingError}
    (h : ob.find_liquidity_in_borrows k = .error e) : e = .ObligationLiquidityEmpty := by
  unfold Obligation.find_liquidity_in_borrows at h
  split at h <;> simp_all

theorem Obligation.find_collateral_in_deposits_err {ob : Obligation} {k : Nat} {e : LendingError}
    (h : ob.find_collateral_in_deposits k = .error e) : e = .ObligationCollateralEmpty := by
  unfold Obligation.find_collateral_in_deposits at h
  split at h <;> simp_all

theorem Reserve.calculate_liquidation_ne {r : Reserve} {a : Nat} {ob : Obligation}
    {l : Liquidity} {c : Collateral} {e : LendingError} (he : e ≠ .MathOverflow) :
    r.calculate_liquidation a ob l c ≠ .error e := by
  unfold Reserve.calculate_liquidation
  apply bind_ne_error (fun h => he (Decimal.try_sub_err h))
  intro mr
  apply bind_ne_error (fun h => he (Decimal.try_mul_err h))
  intro wv
  apply bind_ne_error (fun h => he (Decimal.try_floor_u64_err h))
  intro ra
  apply bind_ne_error (fun h => he (Decimal.try_div_err h))
  intro dv
  apply bind_ne_error (fun h => he (Decimal.try_floor_u64_err h))
  intro wa
  simp

theorem ReserveLiquidity.liq_repay_err {l : ReserveLiquidity} {ra sa : Nat} {e : LendingError}
    (h : l.repay ra sa = .error e) : e = .MathOverflow := by
  unfold ReserveLiquidity.repay at h
  cases hx : U256.try_add l.available_amount ra with
  | error e2 =>
    rw [hx] at h
    simp only [Bind.bind, Except.bind] at h
    injection h with h
    exact h ▸ U256.add_err hx
  | ok a =>
    rw [hx] at h
    simp only [Bind.bind, Except.bind] at h
    cases hy : Decimal.try_sub l.borrowed_amount_wads sa with
    | error e2 =>
      rw [hy] at h
      simp only [Bind.bind, Except.bind] at h
      injection h with h
      exact h ▸ Decimal.try_sub_err hy
    | ok b =>
      rw [hy] at h
      simp only [Bind.bind, Except.bind] at h
      exact Except.noConfusion h

theorem bind_eq_error {ε α β : Type} {x : Except ε α} {f : α → Except ε β} {e : ε}
    (h : x >>= f = .error e) : x = .error e ∨ ∃ a, x = .ok a ∧ f a = .error e := by
  cases x with
  | error e2 =>
    simp only [Bind.bind, Except.bind] at h
    injection h with h
    cases h
    exact Or.inl rfl
  | ok a => exact Or.inr ⟨a, rfl, h⟩

theorem Obligation.repay_err {ob : Obligation} {a i : Nat} {e : LendingError}
    (h : ob.repay a i = .error e) :
    e = .InvalidAccountInput ∨ e = .RepayTooSmall ∨ e = .MathOverflow := by
  unfold Obligation.repay at h
  split at h
  · simp_all
  · split at h
    · simp_all
    · rcases bind_eq_error h with h2 | ⟨v, hv, h2⟩
      · exact Or.inr (Or.inr (Decimal.try_sub_err h2))
      · exact Except.noConfusion h2

theorem Obligation.withdraw_err {ob : Obligation} {a i : Nat} {e : LendingError}
    (h : ob.withdraw a i = .error e) :
    e = .InvalidAccountInput ∨ e = .WithdrawTooLarge := by
  unfold Obligation.withdraw at h
  split at h
  · simp_all
  · split at h
    · simp_all
    · exact Except.noConfusion h

theorem ReserveLiquidity.liq_borrow_err {l : ReserveLiquidity} {a : Nat} {e : LendingError}
    (h : l.borrow a = .error e) : e = .MathOverflow ∨ e = .InsufficientLiquidity := by
  unfold ReserveLiquidity.borrow at h
  rcases bind_eq_error h with h2 | ⟨v, hv, h2⟩
  · exact Or.inl (Decimal.try_floor_u64_err h2)
  · split at h2
    · simp_all
    · rcases bind_eq_error h2 with h3 | ⟨av, hav, h3⟩
      · exact Or.inl (U256.sub_err h3)
      · rcases bind_eq_error h3 with h4 | ⟨bw, hbw, h4⟩
        · exact Or.inl (Decimal.try_add_err h4)
        · exact Except.noConfusion h4

theorem Liquidity.entry_borrow_err {l : Liquidity} {a : Nat} {e : LendingError}
    (h : l.borrow a = .error e) : e = .MathOverflow := by
  unfold Liquidity.borrow at h
  rcases bind_eq_error h with h2 | ⟨v, hv, h2⟩
  · exact Decimal.try_add_err h2
  · exact Except.noConfusion h2

theorem Reserve.calculate_borrow_err {r : Reserve} {a rem : Nat} {e : LendingError}
    (h : r.calculate_borrow a rem = .error e) : e = .MathOverflow := by
  unfold Reserve.calculate_borrow at h
  rcases bind_eq_error h with h2 | ⟨v, hv, h2⟩
  · exact Decimal.try_floor_u64_err h2
  · exact Except.noConfusion h2

theorem Obligation.remaining_borrow_value_eq (ob : Obligation) :
    ob.remaining_borrow_value = .ok (ob.allowed_borrow_value - ob.borrowed_value) := by
  unfold Obligation.remaining_borrow_value Decimal.zero
  split
  · congr 1
    omega
  · exact Decimal.try_sub_ok (by omega)

theorem NovaLending.liquidate_obligation_checked_ne {rk wk : Nat} {ob : Obligation}
    {rr wr : Reserve} {a : Nat} {e : LendingError}
    (h1 : e ≠ .ObligationLiquidityEmpty) (h2 : e ≠ .ObligationCollateralEmpty)
    (h3 : e ≠ .MathOverflow) (h4 : e ≠ .LiquidationTooSmall)
    (h5 : e ≠ .InvalidAccountInput) (h6 : e ≠ .RepayTooSmall)
    (h7 : e ≠ .WithdrawTooLarge) :
    NovaLending.liquidate_obligation_checked rk wk ob rr wr a ≠ .error e := by
  unfold NovaLending.liquidate_obligation_checked
  apply bind_ne_error (fun h => h1 (Obligation.find_liquidity_in_borrows_err h))
  intro p1
  obtain ⟨liquidity, liquidity_index⟩ := p1
  apply bind_ne_error (fun h => h2 (Obligation.find_collateral_in_deposits_err h))
  intro p2
  obtain ⟨collateral, collateral_index⟩ := p2
  apply bind_ne_error (Reserve.calculate_liquidation_ne h3)
  intro res
  split
  · intro hc
    injection hc with hc
    exact h4 hc.symm
  · refine bind_ne_error (fun h => h3 (ReserveLiquidity.liq_repay_err h)) ?_
    intro liq
    refine bind_ne_error (fun h => ?_) ?_
    · rcases Obligation.repay_err h with h' | h' | h'
      exacts [h5 h', h6 h', h3 h']
    · intro ob1
      refine bind_ne_error (fun h => ?_) ?_
      · rcases Obligation.withdraw_err h with h' | h'
        exacts [h5 h', h7 h']
      · intro ob2
        simp

instance {ε α : Type} [DecidableEq ε] [DecidableEq α] : DecidableEq (Except ε α) := fun x y =>
  match x, y with
  | .error a, .error b =>
    if h : a = b then isTrue (h ▸ rfl) else isFalse (fun hh => h (by injection hh))
  | .error _, .ok _ => isFalse (fun hh => Except.noConfusion hh)
  | .ok _, .error _ => isFalse (fun hh => Except.noConfusion hh)
  | .ok a, .ok b =>
    if h : a = b then isTrue (h ▸ rfl) else isFalse (fun hh => h (by injection hh))

/-- A freshly initialised reserve (the shape produced by `init_reserve`):
seed liquidity 1000, no borrows, no collateral minted yet, 5% bonus config. -/
def sampleReserve : Reserve :=
  { lending_market := 7,
    liquidity := { mint_decimals := 9, market_price := WAD, available_amount := 1000,
                   borrowed_amount_wads := 0, cumulative_borrow_rate_wads := WAD },
    collateral := { mint_total_supply := 0 },
    config := { loan_to_value := 50, liquidation_threshold := 60, liquidation_bonus := 20,
                fees := { borrow_fee_wad := 0, flash_loan_fee_wad := 0,
                          host_fee_percentage := 0 } },
    last_update := { slot := 5, stale := false } }

/-- A reserve with outstanding borrows (20 units) and deployed liquidity. -/
def sampleDebtReserve : Reserve :=
  { sampleReserve with liquidity :=
    { mint_decimals := 9, market_price := WAD, available_amount := 100000,
      borrowed_amount_wads := 20 * WAD, cumulative_borrow_rate_wads := WAD } }

/-- A reserve whose collateral supply equals its liquidity (exchange rate 1). -/
def sampleMintReserve : Reserve :=
  { sampleReserve with collateral := { mint_total_supply := 1000 } }

/-- An unhealthy obligation: deposit worth 1000, borrow worth 650, threshold
value 600 (the liquidation-gate scenario of the spec). -/
def sampleOb650 : Obligation :=
  { lending_market := 7, owner := 1,
    deposits := [{ deposit_reserve := 2, deposited_amount := 1000, market_value := WAD }],
    borrows := [{ borrow_reserve := 3, borrowed_amount_wads := 650 * WAD,
                  market_value := 650 * WAD, cumulative_borrow_rate_wads := WAD }],
    deposited_value := 1000 * WAD, borrowed_value := 650 * WAD,
    allowed_borrow_value := 500 * WAD, unhealthy_borrow_value := 600 * WAD,
    last_update := { slot := 5, stale := false } }

/-- The same position with only 100 units borrowed (healthy, used for the
withdrawal-limit computation). -/
def sampleOb100 : Obligation := { sampleOb650 with borrowed_value := 100 * WAD }

/-- An obligation with a single 5-unit debt entry, for the repayment claim. -/
def sampleOb5 : Obligation :=
  { sampleOb650 with borrows :=
    [{ borrow_reserve := 3, borrowed_amount_wads := 5 * WAD, market_value := 5 * WAD,
       cumulative_borrow_rate_wads := WAD }] }

/-- An obligation with deposits and no borrows. -/
def sampleObNoBorrow : Obligation :=
  { sampleOb650 with borrows := [], borrowed_value := 0 }

/-- The debt entry of `sampleOb650`. -/
def sampleLiq650 : Liquidity :=
  { borrow_reserve := 3, borrowed_amount_wads := 650 * WAD, market_value := 650 * WAD,
    cumulative_borrow_rate_wads := WAD }

/-- A collateral entry valued at 1.0 per unit. -/
def sampleCol : Collateral :=
  { deposit_reserve := 2, deposited_amount := 1000, market_value := WAD }

/-- A replacement configuration with a different loan-to-value. -/
def sampleConfig2 : ReserveConfig :=
  { loan_to_value := 60, liquidation_threshold := 70, liquidation_bonus := 10,
    fees := { borrow_fee_wad := 0, flash_loan_fee_wad := 0, host_fee_percentage := 0 } }

/-- Claim C3: the claim says `accrue_interest` must fail with
`NegativeInterestRate` whenever the supplied cumulative index is below the
entry's snapshot.  The `Liquidity::accrue_interest` in `src/processor.rs` —
the function `refresh_obligation` actually calls — performs no such check:
at snapshot 1.0 and index 0.5 it succeeds and HALVES the debt from 100 to 50.
The sibling `ObligationLiquidity::accrue_interest` in
`src/state/obligation.rs` implements exactly the claimed check and fails, so
the claim matches the spec and the state module, and the processor copy is
the slip. -/
theorem accrue_interest_negative_rate_divergence :
    Liquidity.accrue_interest
      { borrow_reserve := 3, borrowed_amount_wads := 100 * WAD, market_value := 0,
        cumulative_borrow_rate_wads := WAD } (WAD / 2) =
      .ok { borrow_reserve := 3, borrowed_amount_wads := 50 * WAD, market_value := 0,
            cumulative_borrow_rate_wads := WAD / 2 } ∧
    WAD / 2 < WAD ∧ 50 * WAD < 100 * WAD ∧
    ObligationLiquidity.accrue_interest
      { borrow_reserve := 3, borrowed_amount_wads := 100 * WAD, market_value := 0,
        cumulative_borrow_rate_wads := WAD } (WAD / 2) =
      .error .NegativeInterestRate := by
  refine ⟨by decide, by decide, by decide, by decide⟩

/-- Claim C5: the claim says a full repayment removes the liquidity entry
from the obligation's borrows list.  The processor-level `Obligation::repay`
(the function `repay_obligation_liquidity` and `liquidate_obligation` call)
never removes the entry: settling the whole 5-unit debt leaves a single
entry with zero debt in the list.  The state-module `Obligation::repay`
(`src/state/obligation.rs`) removes the entry exactly as the claim states,
so the processor copy contradicts its sibling and the spec scenario. -/
theorem obligation_repay_keeps_cleared_entry :
    (sampleOb5.repay (5 * WAD) 0).map (fun ob => ob.borrows.map Liquidity.borrowed_amount_wads)
      = .ok [0] ∧
    (StateObligation.repay sampleOb5 (5 * WAD) 0).map (fun ob => ob.borrows.length)
      = .ok 0 := by
  refine ⟨by decide, by decide⟩

/-- Claim C7: the claim says deposit-then-redeem returns the deposited
amount up to one unit of rounding.  On a freshly initialised reserve with
1000 seed liquidity and zero collateral supply, depositing 1000 mints 1000
collateral at the bootstrap rate 1.0, but redeeming those 1000 returns only
500: the deposit leg multiplies by the liquidity/collateral exchange rate
instead of dividing, so the rate doubles once the collateral is minted and
half the deposit is lost — far beyond the claimed 1-unit rounding loss. -/
theorem deposit_redeem_roundtrip_loses_half :
    (do
      let (r1, minted) ← sampleReserve.deposit_liquidity 1000
      let (r2, redeemed) ← r1.redeem_collateral minted
      Except.ok (minted, redeemed, r2.liquidity.available_amount))
    = .ok (1000, 500, 1500) ∧ 500 + 1 < 1000 := by
  refine ⟨by decide, by decide⟩

/-- Claim C8: `is_stale(now)` is true exactly when the stale flag is set or
the clock has advanced past the recorded slot; `mark_stale` sets the flag,
keeps the slot, and is idempotent; `update_slot(t)` clears the flag, records
`t`, and leaves the marker fresh at `t`.  The storage variant
(`src/state/last_update.rs`, tolerance `STALE_AFTER_SLOTS_ELAPSED = 1`)
agrees with the processor variant whenever the clock has not moved
backwards past the recorded slot. -/
theorem last_update_staleness_char :
    ∀ (lu : LastUpdate) (t now : Nat) (s : LastUpdateStorage), s.slot ≤ now →
      ((lu.is_stale now = true) ↔ (lu.stale = true ∨ lu.slot < now)) ∧
      lu.mark_stale.stale = true ∧
      lu.mark_stale.slot = lu.slot ∧
      lu.mark_stale.mark_stale = lu.mark_stale ∧
      (lu.update_slot t).stale = false ∧
      (lu.update_slot t).slot = t ∧
      (lu.update_slot t).is_stale t = false ∧
      s.is_stale now = .ok (s.stale || decide (s.slot < now)) := by
  intro lu t now s h
  refine ⟨?_, rfl, rfl, rfl, rfl, rfl, ?_, ?_⟩
  · unfold LastUpdate.is_stale
    simp
  · unfold LastUpdate.is_stale LastUpdate.update_slot
    simp
  · unfold LastUpdateStorage.is_stale LastUpdateStorage.slots_elapsed checked_sub
      STALE_AFTER_SLOTS_ELAPSED
    simp only [h, if_pos]
    congr 2
    rw [decide_eq_decide]
    omega

/-- Witness for C8 at concrete values: a fresh marker recorded at slot 5 is
not yet stale at clock 5, and the storage variant computed at clock 7 from
slot 3 reports staleness. -/
theorem last_update_staleness_char_inst :
    ((LastUpdate.is_stale { slot := 5, stale := false } 5 = true) ↔
      (false = true ∨ 5 < 5)) ∧
    (LastUpdateStorage.is_stale { slot := 3, stale := false } 7 =
      .ok (false || decide (3 < 7))) := by
  have h := last_update_staleness_char { slot := 5, stale := false } 9 5
    { slot := 3, stale := false } (by decide)
  refine ⟨?_, ?_⟩
  · have h2 := h.1
    simpa using h2
  · have h2 := h.2.2.2.2.2.2.2
    simpa using h2

/-- Counterexample for C4: on the obligation with deposits worth 1000,
allowed borrow value 500, borrowed value 100 and a borrow entry present,
the claim's formula `(allowed_borrow_value - borrowed_value) / ltv`
yields 800 at `ltv = 50%`, but the processor's `max_withdraw_value`
(used by `calculate_withdraw_amount`) returns
`deposited_value * ltv - borrowed_value = 400`. -/
theorem max_withdraw_value_divergence :
    sampleOb100.max_withdraw_value (Rate.from_percent 50) = .ok (400 * WAD) ∧
    sampleOb100.max_withdraw_value_per_claim (Rate.from_percent 50) = .ok (800 * WAD) ∧
    (400 * WAD : Nat) ≠ 800 * WAD := by
  refine ⟨by decide, by decide, by decide⟩

/-- Claim C4 (amended): `max_withdraw_value(ltv)` returns the full
`deposited_value` when the obligation has no borrows; otherwise it returns
`deposited_value * ltv - borrowed_value` (a Decimal product, floored at the
WAD scale), clamped to 0 when that quantity is non-positive — in particular
it returns 0, not the full deposited value, when `ltv = 0` and borrows
exist, and the difference is not divided by the ltv. -/
theorem max_withdraw_value_char :
    (∀ (ob : Obligation) (rate : Nat), ob.borrows = [] →
      ob.max_withdraw_value rate = .ok ob.deposited_value) ∧
    (∀ (ob : Obligation) (rate : Nat), ob.borrows ≠ [] →
      ob.deposited_value * rate < U256_MOD →
      ob.max_withdraw_value rate =
        .ok (ob.deposited_value * rate / WAD - ob.borrowed_value)) := by
  constructor
  · intro ob rate h
    unfold Obligation.max_withdraw_value
    simp [h]
  · intro ob rate h hmul
    unfold Obligation.max_withdraw_value
    rw [if_neg h, Decimal.try_mul_ok hmul]
    simp only [Bind.bind, Except.bind]
    split
    · unfold Decimal.zero
      congr 1
      omega
    · exact Decimal.try_sub_ok (by omega)

/-- Witness for C4 (amended) at concrete values: with no borrows the whole
1000 deposit value is withdrawable, and with borrows present the clamped
product formula yields 400 at `ltv = 50%`. -/
theorem max_withdraw_value_char_inst :
    sampleObNoBorrow.max_withdraw_value (Rate.from_percent 50) =
      .ok sampleObNoBorrow.deposited_value ∧
    sampleOb100.max_withdraw_value (Rate.from_percent 50) =
      .ok (sampleOb100.deposited_value * Rate.from_percent 50 / WAD -
        sampleOb100.borrowed_value) := by
  refine ⟨max_withdraw_value_char.1 sampleObNoBorrow (Rate.from_percent 50) (by decide),
    max_withdraw_value_char.2 sampleOb100 (Rate.from_percent 50) (by decide) (by decide)⟩

/-- Counterexample for C2: the claim says the liquidation premium is the
reserve's configured `liquidation_bonus`.  With `liquidation_bonus = 20`,
repaying 10 against collateral priced 1.0 should withdraw 12 under the
claim's formula, but `Reserve::calculate_liquidation` uses the hard-coded
`Rate::from_percent(105)` premium and withdraws 10. -/
theorem calculate_liquidation_fixed_premium_divergence :
    sampleReserve.calculate_liquidation 10 sampleOb650 sampleLiq650 sampleCol =
      .ok { settle_amount := 10 * WAD, repay_amount := 10, withdraw_amount := 10 } ∧
    sampleReserve.calculate_liquidation_per_claim 10 sampleOb650 sampleCol =
      .ok { settle_amount := 10 * WAD, repay_amount := 10, withdraw_amount := 12 } ∧
    sampleReserve.config.liquidation_bonus = 20 ∧ (10 : Nat) ≠ 12 := by
  refine ⟨by decide, by decide, by decide, by decide⟩

/-- Counterexample for C9: `modify_reserve_config` changes the reserve's
financial configuration (loan-to-value 50 → 60) yet returns with the
staleness flag still clear, so it is not among the operations that mark the
entities they mutate stale. -/
theorem modify_reserve_config_keeps_fresh :
    (NovaLending.modify_reserve_config 1 1 7 (some sampleReserve) sampleConfig2).map
      (fun r => (r.config.loan_to_value, r.last_update.stale)) = .ok (60, false) ∧
    sampleReserve.config.loan_to_value = 50 ∧
    sampleReserve.last_update.stale = false := by
  refine ⟨by decide, by decide, by decide⟩

/-- Claim C1: once the amount, existence and freshness checks pass,
`liquidate_obligation` fails with `ObligationHealthy` if and only if the
obligation's `borrowed_value` is strictly below its
`unhealthy_borrow_value`; no later step of the call can produce that error,
so liquidation never proceeds on a healthy position. -/
theorem liquidate_obligation_healthy_iff :
    ∀ (clock rk wk : Nat) (ob : Obligation) (rr wr : Reserve) (amount : Nat),
      amount ≠ 0 →
      rr.last_update.is_stale clock = false →
      wr.last_update.is_stale clock = false →
      ob.last_update.is_stale clock = false →
      (NovaLending.liquidate_obligation clock rk wk (some ob) (some rr) (some wr) amount =
          .error .ObligationHealthy
        ↔ ob.borrowed_value < ob.unhealthy_borrow_value) := by
  intro clock rk wk ob rr wr amount h0 h1 h2 h3
  unfold NovaLending.liquidate_obligation
  rw [if_neg h0]
  have hstale : (rr.last_update.is_stale clock || wr.last_update.is_stale clock ||
      ob.last_update.is_stale clock) = false := by
    rw [h1, h2, h3]
    rfl
  simp only [hstale, Bool.false_eq_true, if_false]
  by_cases hb : ob.borrowed_value < ob.unhealthy_borrow_value
  · rw [if_pos hb]
    simp [hb]
  · rw [if_neg hb]
    simp only [hb, iff_false]
    exact NovaLending.liquidate_obligation_checked_ne (by decide) (by decide) (by decide)
      (by decide) (by decide) (by decide) (by decide)

/-- Witness for C1 at concrete values: the healthy position (borrowed 500,
threshold 600) is rejected with `ObligationHealthy`. -/
theorem liquidate_obligation_healthy_iff_inst :
    NovaLending.liquidate_obligation 5 3 2 (some { sampleOb650 with borrowed_value := 500 * WAD })
      (some sampleDebtReserve) (some sampleDebtReserve) 10 = .error .ObligationHealthy :=
  (liquidate_obligation_healthy_iff 5 3 2 { sampleOb650 with borrowed_value := 500 * WAD }
    sampleDebtReserve sampleDebtReserve 10 (by decide) (by decide) (by decide)
    (by decide)).mpr (by decide)

/-- Claim C2 (amended): `calculate_liquidation` computes
`max_repayable = borrowed_value - unhealthy_borrow_value`,
`settle (repay) value = min(requested amount as a Decimal, max_repayable)`,
`withdraw_value = repay_value x 1.05` — the premium is the HARD-CODED
`Rate::from_percent(105)`, not the reserve's configured `liquidation_bonus`
— and `withdraw_amount = floor(withdraw_value / collateral.market_value)`;
`liquidate_obligation` fails with `LiquidationTooSmall` exactly when the
repay amount or the withdraw amount floors to 0. -/
theorem calculate_liquidation_char :
    (∀ (r : Reserve) (amount : Nat) (ob : Obligation) (l : Liquidity) (c : Collateral)
        (rv wv : Nat),
      ob.unhealthy_borrow_value ≤ ob.borrowed_value →
      WAD * amount < U256_MOD →
      rv = min (WAD * amount) (ob.borrowed_value - ob.unhealthy_borrow_value) →
      wv = rv * Rate.from_percent 105 / WAD →
      rv * Rate.from_percent 105 < U256_MOD →
      wv * WAD < U256_MOD →
      c.market_value ≠ 0 →
      rv / WAD ≤ U64_MAX →
      wv * WAD / c.market_value / WAD ≤ U64_MAX →
      r.calculate_liquidation amount ob l c =
        .ok { settle_amount := rv, repay_amount := rv / WAD,
              withdraw_amount := wv * WAD / c.market_value / WAD }) ∧
    (∀ (clock rk wk : Nat) (ob : Obligation) (rr wr : Reserve) (amount : Nat)
        (l : Liquidity) (li : Nat) (c : Collateral) (ci : Nat)
        (res : CalculateLiquidationResult),
      amount ≠ 0 →
      rr.last_update.is_stale clock = false →
      wr.last_update.is_stale clock = false →
      ob.last_update.is_stale clock = false →
      ¬ ob.borrowed_value < ob.unhealthy_borrow_value →
      ob.find_liquidity_in_borrows rk = .ok (l, li) →
      ob.find_collateral_in_deposits wk = .ok (c, ci) →
      wr.calculate_liquidation amount ob l c = .ok res →
      (NovaLending.liquidate_obligation clock rk wk (some ob) (some rr) (some wr) amount =
          .error .LiquidationTooSmall
        ↔ (res.repay_amount = 0 ∨ res.withdraw_amount = 0))) := by
  constructor
  · intro r amount ob l c rv wv hub hAmt hrv hwv hmul hdiv hc hfl1 hfl2
    subst hwv
    unfold Reserve.calculate_liquidation
    rw [Decimal.try_sub_ok hub]
    simp only [Bind.bind, Except.bind, Decimal.fromU_eq hAmt, ← hrv]
    rw [Decimal.try_mul_ok hmul]
    simp only [Bind.bind, Except.bind]
    rw [Decimal.try_floor_u64_ok hfl1]
    simp only [Bind.bind, Except.bind]
    rw [Decimal.try_div_ok hdiv hc]
    simp only [Bind.bind, Except.bind]
    rw [Decimal.try_floor_u64_ok hfl2]
  · intro clock rk wk ob rr wr amount l li c ci res h0 h1 h2 h3 h4 hfl hfc hcalc
    unfold NovaLending.liquidate_obligation
    rw [if_neg h0]
    have hstale : (rr.last_update.is_stale clock || wr.last_update.is_stale clock ||
        ob.last_update.is_stale clock) = false := by
      rw [h1, h2, h3]
      rfl
    simp only [hstale, Bool.false_eq_true, if_false]
    rw [if_neg h4]
    unfold NovaLending.liquidate_obligation_checked
    rw [hfl]
    simp only [Bind.bind, Except.bind]
    rw [hfc]
    simp only [Bind.bind, Except.bind]
    rw [hcalc]
    simp only [Bind.bind, Except.bind]
    by_cases hz : res.repay_amount = 0 ∨ res.withdraw_amount = 0
    · rw [if_pos hz]
      simp [hz]
    · rw [if_neg hz]
      simp only [hz, iff_false]
      refine bind_ne_error (fun h => ?_) ?_
      · exact absurd (ReserveLiquidity.liq_repay_err h) (by decide)
      · intro liq
        refine bind_ne_error (fun h => ?_) ?_
        · rcases Obligation.repay_err h with h' | h' | h' <;> exact absurd h' (by decide)
        · intro ob1
          refine bind_ne_error (fun h => ?_) ?_
          · rcases Obligation.withdraw_err h with h' | h' <;> exact absurd h' (by decide)
          · intro ob2
            simp

/-- Witness for C2 (amended) at concrete values: repaying 10 of the
unhealthy 650-borrow position (threshold 600) settles 10.0, repays 10
units and withdraws 10 collateral units at the fixed 1.05 premium, and the
liquidation is not rejected as too small. -/
theorem calculate_liquidation_char_inst :
    sampleReserve.calculate_liquidation 10 sampleOb650 sampleLiq650 sampleCol =
      .ok { settle_amount := 10 * WAD, repay_amount := 10, withdraw_amount := 10 } ∧
    ¬ (NovaLending.liquidate_obligation 5 3 2 (some sampleOb650) (some sampleDebtReserve)
        (some sampleDebtReserve) 10 = .error .LiquidationTooSmall) := by
  constructor
  · exact (calculate_liquidation_char.1 sampleReserve 10 sampleOb650 sampleLiq650 sampleCol
      (10 * WAD) (10 * WAD * Rate.from_percent 105 / WAD) (by decide) (by decide) (by decide)
      rfl (by decide) (by decide) (by decide) (by decide) (by decide)).trans (by decide)
  · intro h
    exact absurd ((calculate_liquidation_char.2 5 3 2 sampleOb650 sampleDebtReserve
      sampleDebtReserve 10 sampleLiq650 0 sampleCol 0
      { settle_amount := 10 * WAD, repay_amount := 10, withdraw_amount := 10 }
      (by decide) (by decide) (by decide) (by decide) (by decide) (by decide) (by decide)
      (by decide)).mp h) (by decide)

/-- Claim C6: `calculate_borrow` takes the floored remaining capacity for
the `U256::max_value()` sentinel and `min(requested, floor(capacity))`
otherwise, with `borrow_fee = borrow_amount / 100`,
`host_fee = borrow_fee / 10` and
`receive_amount = borrow_amount - borrow_fee`; and once the earlier checks
of `borrow_obligation_liquidity` pass, the call fails with `BorrowTooSmall`
exactly when the receive amount is 0. -/
theorem calculate_borrow_char :
    (∀ (r : Reserve) (amount remaining ba : Nat),
      remaining / WAD ≤ U64_MAX →
      ba = (if amount = U256_MAX then remaining / WAD else min amount (remaining / WAD)) →
      r.calculate_borrow amount remaining = .ok
        { borrow_amount := Decimal.fromU ba, receive_amount := ba - ba / 100,
          borrow_fee := ba / 100, host_fee := ba / 100 / 10 }) ∧
    (∀ (clock rk : Nat) (ob : Obligation) (r : Reserve) (amount slip : Nat)
        (res : CalculateBorrowResult),
      amount ≠ 0 →
      r.last_update.is_stale clock = false →
      ob.last_update.is_stale clock = false →
      ob.deposits ≠ [] →
      ob.allowed_borrow_value - ob.borrowed_value ≠ 0 →
      r.calculate_borrow amount (ob.allowed_borrow_value - ob.borrowed_value) = .ok res →
      (NovaLending.borrow_obligation_liquidity clock rk (some ob) (some r) amount slip =
          .error .BorrowTooSmall
        ↔ res.receive_amount = 0)) := by
  constructor
  · intro r amount remaining ba hcap hba
    subst hba
    unfold Reserve.calculate_borrow
    rw [Decimal.try_floor_u64_ok hcap]
    simp only [Bind.bind, Except.bind]
  · intro clock rk ob r amount slip res h0 h1 h2 hdep hrv hcalc
    unfold NovaLending.borrow_obligation_liquidity
    rw [if_neg h0]
    have hstale : (r.last_update.is_stale clock || ob.last_update.is_stale clock) = false := by
      rw [h1, h2]
      rfl
    simp only [hstale, Bool.false_eq_true, if_false]
    rw [if_neg hdep, Obligation.remaining_borrow_value_eq]
    simp only [Bind.bind, Except.bind]
    rw [if_neg hrv, hcalc]
    simp only [Bind.bind, Except.bind]
    by_cases hz : res.receive_amount = 0
    · rw [if_pos hz]
      simp [hz]
    · rw [if_neg hz]
      simp only [hz, iff_false]
      split
      · intro hcontra
        injection hcontra with hcontra
        exact absurd hcontra.symm (by decide)
      · refine bind_ne_error (fun h => ?_) ?_
        · rcases ReserveLiquidity.liq_borrow_err h with h' | h' <;> exact absurd h' (by decide)
        · intro liq
          split
          · intro hcontra
            injection hcontra with hcontra
            exact absurd hcontra.symm (by decide)
          · refine bind_ne_error (fun h => ?_) ?_
            · exact absurd (Decimal.try_floor_u64_err h) (by decide)
            · intro f
              refine bind_ne_error (fun h => ?_) ?_
              · exact absurd (Liquidity.entry_borrow_err h) (by decide)
              · intro entry2
                simp

/-- Witness for C6 at concrete values: borrowing 1000 against a remaining
capacity of 400 caps the borrow at 400, charges a 4-unit fee with
host share 0, pays out 396, and the call is not rejected as too small. -/
theorem calculate_borrow_char_inst :
    sampleReserve.calculate_borrow 1000 (400 * WAD) = .ok
      { borrow_amount := Decimal.fromU 400, receive_amount := 396,
        borrow_fee := 4, host_fee := 0 } ∧
    ¬ (NovaLending.borrow_obligation_liquidity 5 3 (some sampleOb100) (some sampleDebtReserve)
        1000 0 = .error .BorrowTooSmall) := by
  constructor
  · exact (calculate_borrow_char.1 sampleReserve 1000 (400 * WAD) 400 (by decide)
      (by decide)).trans (by decide)
  · intro h
    exact absurd ((calculate_borrow_char.2 5 3 sampleOb100 sampleDebtReserve 1000 0
      { borrow_amount := Decimal.fromU 400, receive_amount := 396, borrow_fee := 4,
        host_fee := 0 }
      (by decide) (by decide) (by decide) (by decide) (by decide) (by decide)).mp h)
      (by decide)

/-- Claim C9 (amended): the liquidity-deposit, collateral-redeem,
obligation-collateral deposit and withdraw, borrow, repay and liquidation
operations mark every entity whose financial state they mutate stale before
returning success (liquidation also writes the withdraw reserve back
unchanged, so it needs no marking).  The two remaining operations the claim
lists do NOT call `mark_stale`: `flash_loan` returns the reserve with its
staleness marker untouched (its net liquidity change is zero and no fee is
credited), and `modify_reserve_config` overwrites the config while leaving
the reserve's staleness marker untouched. -/
theorem mutating_ops_mark_stale :
    (∀ (clock : Nat) (r : Reserve) (a : Nat) (out : Reserve × Nat),
      NovaLending.deposit_reserve_liquidity clock (some r) a = .ok out →
      out.1.last_update.stale = true) ∧
    (∀ (clock : Nat) (r : Reserve) (a : Nat) (out : Reserve × Nat),
      NovaLending.redeem_reserve_collateral clock (some r) a = .ok out →
      out.1.last_update.stale = true) ∧
    (∀ (clock rk : Nat) (ob : Obligation) (r : Reserve) (a : Nat) (out : Obligation × Reserve),
      NovaLending.deposit_obligation_collateral clock rk (some ob) (some r) a = .ok out →
      out.1.last_update.stale = true ∧ out.2 = r) ∧
    (∀ (clock rk : Nat) (ob : Obligation) (r : Reserve) (a : Nat) (out : Obligation × Nat),
      NovaLending.withdraw_obligation_collateral clock rk (some ob) (some r) a = .ok out →
      out.1.last_update.stale = true) ∧
    (∀ (clock rk : Nat) (ob : Obligation) (r : Reserve) (a s : Nat)
        (out : Obligation × Reserve × Nat),
      NovaLending.borrow_obligation_liquidity clock rk (some ob) (some r) a s = .ok out →
      out.1.last_update.stale = true ∧ out.2.1.last_update.stale = true) ∧
    (∀ (clock rk : Nat) (ob : Obligation) (r : Reserve) (a : Nat) (out : Obligation × Reserve),
      NovaLending.repay_obligation_liquidity clock rk (some ob) (some r) a = .ok out →
      out.1.last_update.stale = true ∧ out.2.last_update.stale = true) ∧
    (∀ (clock rk wk : Nat) (ob : Obligation) (rr wr : Reserve) (a : Nat)
        (out : Obligation × Reserve × Reserve),
      NovaLending.liquidate_obligation clock rk wk (some ob) (some rr) (some wr) a = .ok out →
      out.1.last_update.stale = true ∧ out.2.1.last_update.stale = true ∧ out.2.2 = wr) ∧
    (∀ (r : Reserve) (a : Nat) (out : Reserve),
      NovaLending.flash_loan (some r) a = .ok out → out.last_update = r.last_update) ∧
    (∀ (caller owner self_addr : Nat) (r : Reserve) (cfg : ReserveConfig) (out : Reserve),
      NovaLending.modify_reserve_config caller owner self_addr (some r) cfg = .ok out →
      out.last_update = r.last_update) := by
  refine ⟨?_, ?_, ?_, ?_, ?_, ?_, ?_, ?_, ?_⟩
  · intro clock r a out h
    unfold NovaLending.deposit_reserve_liquidity at h
    simp only [Bind.bind, Except.bind] at h
    repeat' split at h
    all_goals first
      | exact Except.noConfusion h
      | (injection h with h; subst h; simp [LastUpdate.mark_stale])
  · intro clock r a out h
    unfold NovaLending.redeem_reserve_collateral at h
    simp only [Bind.bind, Except.bind] at h
    repeat' split at h
    all_goals first
      | exact Except.noConfusion h
      | (injection h with h; subst h; simp [LastUpdate.mark_stale])
  · intro clock rk ob r a out h
    unfold NovaLending.deposit_obligation_collateral at h
    simp only [Bind.bind, Except.bind] at h
    repeat' split at h
    all_goals first
      | exact Except.noConfusion h
      | (injection h with h; subst h; simp [LastUpdate.mark_stale])
  · intro clock rk ob r a out h
    unfold NovaLending.withdraw_obligation_collateral at h
    simp only [Bind.bind, Except.bind] at h
    repeat' split at h
    all_goals first
      | exact Except.noConfusion h
      | (injection h with h; subst h; simp [LastUpdate.mark_stale])
  · intro clock rk ob r a s out h
    unfold NovaLending.borrow_obligation_liquidity at h
    simp only [Bind.bind, Except.bind] at h
    repeat' split at h
    all_goals first
      | exact Except.noConfusion h
      | (injection h with h; subst h; simp [LastUpdate.mark_stale])
  · intro clock rk ob r a out h
    unfold NovaLending.repay_obligation_liquidity at h
    simp only [Bind.bind, Except.bind] at h
    repeat' split at h
    all_goals first
      | exact Except.noConfusion h
      | (injection h with h; subst h; simp [LastUpdate.mark_stale])
  · intro clock rk wk ob rr wr a out h
    unfold NovaLending.liquidate_obligation NovaLending.liquidate_obligation_checked at h
    simp only [Bind.bind, Except.bind] at h
    repeat' split at h
    all_goals first
      | exact Except.noConfusion h
      | (injection h with h; subst h; simp [LastUpdate.mark_stale])
  · intro r a out h
    unfold NovaLending.flash_loan at h
    simp only [Bind.bind, Except.bind] at h
    repeat' split at h
    all_goals first
      | exact Except.noConfusion h
      | (injection h with h; subst h; rfl)
  · intro caller owner self_addr r cfg out h
    unfold NovaLending.modify_reserve_config at h
    simp only [Bind.bind, Except.bind] at h
    repeat' split at h
    all_goals first
      | exact Except.noConfusion h
      | (injection h with h; subst h; rfl)

/-- The reserve and mint amount produced by the witness deposit run. -/
def c9_deposit_out : Reserve × Nat :=
  match NovaLending.deposit_reserve_liquidity 5 (some sampleReserve) 100 with
  | .ok v => v
  | .error _ => (sampleReserve, 0)

/-- The reserve and payout produced by the witness redeem run. -/
def c9_redeem_out : Reserve × Nat :=
  match NovaLending.redeem_reserve_collateral 5 (some sampleMintReserve) 100 with
  | .ok v => v
  | .error _ => (sampleMintReserve, 0)

/-- The entities produced by the witness obligation-collateral deposit run. -/
def c9_obdeposit_out : Obligation × Reserve :=
  match NovaLending.deposit_obligation_collateral 5 2 (some sampleObNoBorrow)
      (some sampleReserve) 50 with
  | .ok v => v
  | .error _ => (sampleObNoBorrow, sampleReserve)

/-- The entities produced by the witness obligation-collateral withdraw run. -/
def c9_obwithdraw_out : Obligation × Nat :=
  match NovaLending.withdraw_obligation_collateral 5 2 (some sampleObNoBorrow)
      (some sampleReserve) 30 with
  | .ok v => v
  | .error _ => (sampleObNoBorrow, 0)

/-- The entities produced by the witness borrow run. -/
def c9_borrow_out : Obligation × Reserve × Nat :=
  match NovaLending.borrow_obligation_liquidity 5 3 (some sampleOb100)
      (some sampleDebtReserve) 1000 0 with
  | .ok v => v
  | .error _ => (sampleOb100, sampleDebtReserve, 0)

/-- The entities produced by the witness repay run. -/
def c9_repay_out : Obligation × Reserve :=
  match NovaLending.repay_obligation_liquidity 5 3 (some sampleOb100)
      (some sampleDebtReserve) 10 with
  | .ok v => v
  | .error _ => (sampleOb100, sampleDebtReserve)

/-- The entities produced by the witness liquidation run. -/
def c9_liquidate_out : Obligation × Reserve × Reserve :=
  match NovaLending.liquidate_obligation 5 3 2 (some sampleOb650) (some sampleDebtReserve)
      (some sampleDebtReserve) 10 with
  | .ok v => v
  | .error _ => (sampleOb650, sampleDebtReserve, sampleDebtReserve)

/-- The reserve produced by the witness flash-loan run. -/
def c9_flash_out : Reserve :=
  match NovaLending.flash_loan (some sampleReserve) 5 with
  | .ok v => v
  | .error _ => sampleReserve

/-- The reserve produced by the witness config-modification run. -/
def c9_modify_out : Reserve :=
  match NovaLending.modify_reserve_config 1 1 7 (some sampleReserve) sampleConfig2 with
  | .ok v => v
  | .error _ => sampleReserve

/-- Witness for C9 (amended): one concrete successful run of every
operation, with the staleness conclusions instantiated. -/
theorem mutating_ops_mark_stale_inst :
    c9_deposit_out.1.last_update.stale = true ∧
    c9_redeem_out.1.last_update.stale = true ∧
    c9_obdeposit_out.1.last_update.stale = true ∧
    c9_obwithdraw_out.1.last_update.stale = true ∧
    (c9_borrow_out.1.last_update.stale = true ∧ c9_borrow_out.2.1.last_update.stale = true) ∧
    (c9_repay_out.1.last_update.stale = true ∧ c9_repay_out.2.last_update.stale = true) ∧
    (c9_liquidate_out.1.last_update.stale = true ∧
      c9_liquidate_out.2.1.last_update.stale = true ∧
      c9_liquidate_out.2.2 = sampleDebtReserve) ∧
    c9_flash_out.last_update = sampleReserve.last_update ∧
    c9_modify_out.last_update = sampleReserve.last_update := by
  refine ⟨?_, ?_, ?_, ?_, ?_, ?_, ?_, ?_, ?_⟩
  · exact mutating_ops_mark_stale.1 5 sampleReserve 100 c9_deposit_out (by decide)
  · exact mutating_ops_mark_stale.2.1 5 sampleMintReserve 100 c9_redeem_out (by decide)
  · exact (mutating_ops_mark_stale.2.2.1 5 2 sampleObNoBorrow sampleReserve 50
      c9_obdeposit_out (by decide)).1
  · exact mutating_ops_mark_stale.2.2.2.1 5 2 sampleObNoBorrow sampleReserve 30
      c9_obwithdraw_out (by decide)
  · exact mutating_ops_mark_stale.2.2.2.2.1 5 3 sampleOb100 sampleDebtReserve 1000 0
      c9_borrow_out (by decide)
  · exact mutating_ops_mark_stale.2.2.2.2.2.1 5 3 sampleOb100 sampleDebtReserve 10
      c9_repay_out (by decide)
  · exact mutating_ops_mark_stale.2.2.2.2.2.2.1 5 3 2 sampleOb650 sampleDebtReserve
      sampleDebtReserve 10 c9_liquidate_out (by decide)
  · exact mutating_ops_mark_stale.2.2.2.2.2.2.2.1 sampleReserve 5 c9_flash_out (by decide)
  · exact mutating_ops_mark_stale.2.2.2.2.2.2.2.2 1 1 7 sampleReserve sampleConfig2
      c9_modify_out (by decide)

theorem U256.sub_ok_inv {a b v : Nat} (h : U256.try_sub a b = .ok v) :
    b ≤ a ∧ v = a - b := by
  unfold U256.try_sub checked_sub at h
  by_cases hc : b ≤ a
  · rw [if_pos hc] at h
    injection h with h
    exact ⟨hc, h.symm⟩
  · rw [if_neg hc] at h
    exact Except.noConfusion h

theorem U256.add_ok_inv {a b v : Nat} (h : U256.try_add a b = .ok v) :
    a + b < U256_MOD ∧ v = a + b := by
  unfold U256.try_add checked_add at h
  by_cases hc : a + b < U256_MOD
  · rw [if_pos hc] at h
    injection h with h
    exact ⟨hc, h.symm⟩
  · rw [if_neg hc] at h
    exact Except.noConfusion h

theorem Decimal.try_sub_ok_inv {a b v : Nat} (h : Decimal.try_sub a b = .ok v) :
    b ≤ a ∧ v = a - b := by
  unfold Decimal.try_sub checked_sub at h
  by_cases hc : b ≤ a
  · rw [if_pos hc] at h
    injection h with h
    exact ⟨hc, h.symm⟩
  · rw [if_neg hc] at h
    exact Except.noConfusion h

theorem Decimal.try_add_ok_inv {a b v : Nat} (h : Decimal.try_add a b = .ok v) :
    a + b < U256_MOD ∧ v = a + b := by
  unfold Decimal.try_add checked_add at h
  by_cases hc : a + b < U256_MOD
  · rw [if_pos hc] at h
    injection h with h
    exact ⟨hc, h.symm⟩
  · rw [if_neg hc] at h
    exact Except.noConfusion h

theorem Decimal.try_floor_u64_ok_inv {a v : Nat} (h : Decimal.try_floor_u64 a = .ok v) :
    a / WAD ≤ U64_MAX ∧ v = a / WAD := by
  unfold Decimal.try_floor_u64 at h
  by_cases hc : a / WAD > U64_MAX
  · rw [if_pos hc] at h
    exact Except.noConfusion h
  · rw [if_neg hc] at h
    injection h with h
    exact ⟨by omega, h.symm⟩

theorem ReserveLiquidity.borrow_ok {l l2 : ReserveLiquidity} {d : Nat}
    (h : l.borrow d = .ok l2) :
    d / WAD ≤ l.available_amount ∧
    l2.available_amount = l.available_amount - d / WAD ∧
    l2.borrowed_amount_wads = l.borrowed_amount_wads + d := by
  unfold ReserveLiquidity.borrow at h
  rcases bind_eq_ok h with ⟨amt, hamt, h⟩
  obtain ⟨hcap, hamt2⟩ := Decimal.try_floor_u64_ok_inv hamt
  subst hamt2
  split at h
  · exact Except.noConfusion h
  · rcases bind_eq_ok h with ⟨av, hav, h⟩
    rcases bind_eq_ok h with ⟨bw, hbw, h⟩
    obtain ⟨hle, hav2⟩ := U256.sub_ok_inv hav
    obtain ⟨hlt, hbw2⟩ := Decimal.try_add_ok_inv hbw
    injection h with h
    subst h
    subst hav2
    subst hbw2
    exact ⟨hle, rfl, rfl⟩

theorem ReserveLiquidity.repay_ok {l l2 : ReserveLiquidity} {ra sa : Nat}
    (h : l.repay ra sa = .ok l2) :
    sa ≤ l.borrowed_amount_wads ∧
    l2.available_amount = l.available_amount + ra ∧
    l2.borrowed_amount_wads = l.borrowed_amount_wads - sa := by
  unfold ReserveLiquidity.repay at h
  rcases bind_eq_ok h with ⟨av, hav, h⟩
  rcases bind_eq_ok h with ⟨bw, hbw, h⟩
  obtain ⟨hlt, hav2⟩ := U256.add_ok_inv hav
  obtain ⟨hle, hbw2⟩ := Decimal.try_sub_ok_inv hbw
  injection h with h
  subst h
  subst hav2
  subst hbw2
  exact ⟨hle, rfl, rfl⟩

/-- Claim C10: a successful `flash_loan` whose loan size fits in `u64`
leaves the reserve's liquidity exactly as it found it — the available
amount and the outstanding borrows equal their pre-call values, and in
particular neither the origination fee nor the host fee is ever credited
to the reserve (the fee distribution helper is a no-op and the repayment
settles only the loan amount itself). -/
theorem flash_loan_preserves_liquidity :
    ∀ (r : Reserve) (amount : Nat) (out : Reserve),
      (if amount = U256_MAX then r.liquidity.available_amount else amount) ≤ U64_MAX →
      NovaLending.flash_loan (some r) amount = .ok out →
      out.liquidity.available_amount = r.liquidity.available_amount ∧
      out.liquidity.borrowed_amount_wads = r.liquidity.borrowed_amount_wads := by
  intro r amount out hfit h
  unfold NovaLending.flash_loan at h
  split at h
  · exact Except.noConfusion h
  · rcases bind_eq_ok h with ⟨⟨origination_fee, host_fee⟩, hfees, h⟩
    rcases bind_eq_ok h with ⟨fee_floored, hff, h⟩
    rcases bind_eq_ok h with ⟨req, hreq, h⟩
    rcases bind_eq_ok h with ⟨liq1, hborrow, h⟩
    rcases bind_eq_ok h with ⟨liq2, hrepay, h⟩
    rcases bind_eq_ok h with ⟨f1, hf1, h⟩
    rcases bind_eq_ok h with ⟨f2, hf2, h⟩
    injection h with h
    subst h
    obtain ⟨hle, hav1, hbw1⟩ := ReserveLiquidity.borrow_ok hborrow
    obtain ⟨hle2, hav2, hbw2⟩ := ReserveLiquidity.repay_ok hrepay
    have hW : WAD * (if amount = U256_MAX then r.liquidity.available_amount else amount) <
        U256_MOD :=
      lt_of_le_of_lt (Nat.mul_le_mul_left WAD hfit) (by decide)
    rw [Decimal.fromU_eq hW] at hav1 hbw1 hbw2 hle
    have hdiv : WAD * (if amount = U256_MAX then r.liquidity.available_amount else amount) /
        WAD = (if amount = U256_MAX then r.liquidity.available_amount else amount) :=
      Nat.mul_div_cancel_left _ (by decide)
    rw [hdiv] at hav1 hle
    refine ⟨?_, ?_⟩
    · show liq2.available_amount = r.liquidity.available_amount
      omega
    · show liq2.borrowed_amount_wads = r.liquidity.borrowed_amount_wads
      omega

/-- The reserve produced by the witness flash-loan run for C10. -/
def c10_flash_out : Reserve :=
  match NovaLending.flash_loan (some sampleDebtReserve) 7 with
  | .ok v => v
  | .error _ => sampleDebtReserve

/-- Witness for C10 at concrete values: a 7-unit flash loan on the reserve
with 100000 available and 20 borrowed leaves both figures unchanged. -/
theorem flash_loan_preserves_liquidity_inst :
    c10_flash_out.liquidity.available_amount = sampleDebtReserve.liquidity.available_amount ∧
    c10_flash_out.liquidity.borrowed_amount_wads =
      sampleDebtReserve.liquidity.borrowed_amount_wads :=
  flash_loan_preserves_liquidity sampleDebtReserve 7 c10_flash_out (by decide) (by decide)
